import Mathlib

/-!
Verification development for the KDMS (Kenya Disaster Management System)
repository.  The frontend sources (AlertConsole, AIReport, the boundary-data
download script) are embedded directly from the JavaScript/JSX code.  Backend
components that the repository's architecture document declares but whose code
is not present (Alert Dispatcher, Analysis Cache, Collector, Dispatch
Recommender) are modelled from the specification; each such definition carries
a doc comment starting with "Modelled from the spec:".
-/

namespace KDMS

/-! ## Alert console (AlertConsole component) -/

/-- An HTTP request issued by the frontend: method and full request path. -/
structure HttpRequest where
  method : String
  path : String
deriving DecidableEq, Repr

/-- The path generatePreview posts to: api ++ "/alert/send"
(the fetch target in AlertConsole.generatePreview). -/
def sendAlertPath (api : String) : String := api ++ "/alert/send"

/-- The path of the alerts-list endpoint: api ++ "/alerts". -/
def alertsPath (api : String) : String := api ++ "/alerts"

/-- The HTTP requests issued by one invocation of AlertConsole.generatePreview:
nothing when no disaster is selected (the falsy-disId early return), otherwise a
POST to the alert-send endpoint followed by a GET refreshing the alerts list. -/
def generatePreviewRequests (api disId : String) : List HttpRequest :=
  if disId = "" then []
  else [⟨"POST", sendAlertPath api⟩, ⟨"GET", alertsPath api⟩]

/-- Modelled from the spec: the FastAPI backend is not under src/.  The
architecture document declares "POST /alert/send — trigger SMS to affected
community", and the spec's design notes record that the console calls that one
endpoint for both preview and send.  A request dispatches SMS iff it is a POST
to the alert-send path. -/
def dispatchesSms (api : String) (r : HttpRequest) : Bool :=
  r.method == "POST" && r.path == sendAlertPath api

/-- A parsed JSON body of the alert-send response, as the console reads it. -/
structure AlertJson where
  message_en : String
  message_sw : String
  recipients : Nat
deriving DecidableEq, Repr

/-- Kind of toast shown by showToast. -/
inductive ToastType
  | success
  | error
deriving DecidableEq, Repr

/-- What the operator sees after generatePreview resolves. -/
structure PreviewOutcome where
  preview : Option AlertJson
  toastType : ToastType
  toastMsg : String
deriving DecidableEq, Repr

/-- The success-toast text built in generatePreview. -/
def sentToastMsg (n : Nat) : String :=
  "✅ Alert sent to " ++ toString n ++ " recipient" ++ (if n ≠ 1 then "s" else "")

/-- Outcome of AlertConsole.generatePreview given the HTTP status of the
response and its body (some = the body parsed as JSON, none = res.json threw).
Mirrors the code: data = await res.json(); setPreview(data); success toast —
with no inspection of res.status or res.ok; only a json-parse throw reaches
the catch branch with the failure toast. -/
def generatePreviewOutcome (status : Nat) (body : Option AlertJson) : PreviewOutcome :=
  match body with
  | some data =>
      { preview := some data
        toastType := ToastType.success
        toastMsg := sentToastMsg data.recipients }
  | none =>
      { preview := none
        toastType := ToastType.error
        toastMsg := "❌ Failed to send alert" }

/-! ## Boundary-data download script -/

/-- The primary download URL in the script. -/
def url : String :=
  "https://data.humdata.org/dataset/02ec0e4c-ec76-4d04-ab4f-801fc1caaa38/resource/820061fa-8a03-455b-af86-d922aeb14cf0/download/ken_admbnda_adm1_iebc_20191031.geojson"

/-- The fallback download URL in the script (textually the same resource). -/
def fallbackUrl : String :=
  "https://data.humdata.org/dataset/02ec0e4c-ec76-4d04-ab4f-801fc1caaa38/resource/820061fa-8a03-455b-af86-d922aeb14cf0/download/ken_admbnda_adm1_iebc_20191031.geojson"

/-- Observable outcome of one run of the download function: the URLs actually
requested in order, whether the destination file was written, and whether the
completion callback (which prints "Done") was invoked. -/
structure DownloadRun where
  requests : List String
  fileWritten : Bool
  cbInvoked : Bool
deriving DecidableEq, Repr

/-- The download function of the script, over a status oracle giving each URL's
HTTP status code.  Mirrors: on non-200, if url === fallbackUrl invoke cb and
stop, else recurse on the fallback URL; on 200, write the file and invoke cb. -/
def download (status : String → Nat) (u : String) : DownloadRun :=
  if status u ≠ 200 then
    if h : u = fallbackUrl then
      { requests := [u], fileWritten := false, cbInvoked := true }
    else
      let r := download status fallbackUrl
      { requests := u :: r.requests, fileWritten := r.fileWritten, cbInvoked := r.cbInvoked }
  else
    { requests := [u], fileWritten := true, cbInvoked := true }
termination_by (if u = fallbackUrl then 0 else 1)
decreasing_by simp [h]

/-! ## AI report loader (AIReport component) -/

/-- The parsed body of GET /report/national as AIReport reads it. -/
structure NationalReportResponse where
  report : Option String
  stats : Option String
  generated_at : Option String
deriving DecidableEq, Repr

/-- The parsed body of GET /predict as AIReport reads it. -/
structure PredictResponse where
  predictions : Option (List String)
deriving DecidableEq, Repr

/-- The component state loadAll reads and writes. -/
structure AIReportState where
  report : Option String
  stats : Option String
  generatedAt : Option String
  predictions : List String
  loading : Bool
deriving DecidableEq, Repr

/-- AIReport.loadAll as a state transition.  The two fetches run under
Promise.all: some = that request resolved with a parsed body, none = it
failed.  Only when both succeed are the four setters executed (predictions
defaulting to [] when the field is absent); any failure reaches the catch
branch, which merely logs — so every piece of prior state except the loading
flag is retained. -/
def loadAll (s : AIReportState) (natRes : Option NationalReportResponse)
    (predRes : Option PredictResponse) : AIReportState :=
  match natRes, predRes with
  | some n, some p =>
      { s with
        report := n.report
        stats := n.stats
        generatedAt := n.generated_at
        predictions := p.predictions.getD []
        loading := false }
  | _, _ => { s with loading := false }

/-! ## Alert Dispatcher (backend, modelled from the spec) -/

/-- Status of a stored Alert record. -/
inductive AlertStatus
  | sent
  | failed
deriving DecidableEq, Repr

/-- A stored Alert record: disaster reference, escalation tier, status. -/
structure AlertRec where
  disaster : Nat
  tier : Nat
  status : AlertStatus
deriving DecidableEq, Repr

/-- True iff the store already holds a sent Alert for the (disaster, tier) pair. -/
def hasSentAlert (d t : Nat) (alerts : List AlertRec) : Bool :=
  alerts.any fun a => a.disaster == d && a.tier == t && a.status == AlertStatus.sent

/-- Number of sent Alert records for the (disaster, tier) pair. -/
def sentCount (d t : Nat) (alerts : List AlertRec) : Nat :=
  alerts.countP fun a => a.disaster == d && a.tier == t && a.status == AlertStatus.sent

/-- Modelled from the spec: the Alert Dispatcher backend is not under src/.
One dispatch request for (disaster d, tier t): if a sent Alert for that pair
already exists, the request is a no-op with an "already satisfied" result
(ConstraintViolation recovery); otherwise it produces a new sent Alert. -/
def dispatchAlert (d t : Nat) (alerts : List AlertRec) : List AlertRec :=
  if hasSentAlert d t alerts then alerts
  else { disaster := d, tier := t, status := AlertStatus.sent } :: alerts

/-- Modelled from the spec: N concurrent dispatch requests for the same
(disaster, tier) pair must serialize (a mutex keyed on disaster identity), so
they act on the store one after another. -/
def dispatchN (d t : Nat) (n : Nat) (alerts : List AlertRec) : List AlertRec :=
  (dispatchAlert d t)^[n] alerts

/-! ## Alert message truncation (backend, modelled from the spec) -/

/-- Modelled from the spec: the Dispatcher's message-length validation is not
under src/.  Greedy word join: starting from an accumulated text already within
the limit, append the next space-separated word only while the result stays
within the limit — so the result always ends at a word boundary. -/
def joinWithin (limit : Nat) : List Char → List (List Char) → List Char
  | acc, [] => acc
  | acc, w :: ws =>
      if (acc ++ [' '] ++ w).length ≤ limit
      then joinWithin limit (acc ++ [' '] ++ w) ws
      else acc

/-- Split a message into its space-separated words (the JS String.split model). -/
def splitWordsAux : List Char → List Char → List (List Char)
  | acc, [] => [acc.reverse]
  | acc, c :: cs => if c = ' ' then acc.reverse :: splitWordsAux [] cs
                    else splitWordsAux (c :: acc) cs

/-- The words of a message. -/
def splitWords (msg : List Char) : List (List Char) :=
  splitWordsAux [] msg

/-- Modelled from the spec: truncate an over-length message at a word boundary
to at most limit characters and report whether truncation happened.  A message
already within the limit is returned unchanged and unflagged.  When even the
first word exceeds the limit there is no usable word boundary and the first
word is cut at the limit. -/
def truncateWordBoundary (limit : Nat) (msg : List Char) : List Char × Bool :=
  if msg.length ≤ limit then (msg, false)
  else
    match splitWords msg with
    | [] => ([], true)
    | w :: ws =>
        if w.length ≤ limit then (joinWithin limit w ws, true)
        else (w.take limit, true)

/-- A generated alert message as stored: the (possibly truncated) text of the
language variant and the truncated flag. -/
structure GeneratedAlert where
  message_en : List Char
  truncated : Bool
deriving DecidableEq, Repr

/-- Modelled from the spec: the Dispatcher validates the AI collaborator's
message against the 160-character SMS limit; an over-length variant is
truncated at a word boundary and flagged, never rejected — so validation
always returns an accepted alert, never an error. -/
def validateMessage (msg : List Char) : Except String GeneratedAlert :=
  let r := truncateWordBoundary 160 msg
  Except.ok { message_en := r.1, truncated := r.2 }

/-- Whether a validation outcome accepted the alert. -/
def isAccepted : Except String GeneratedAlert → Bool
  | Except.ok _ => true
  | Except.error _ => false

/-! ## Analysis Cache (backend, modelled from the spec) -/

/-- One cache entry: key, stored AI output, and whether it is past its expiry
(stale entries are retained for audit, not deleted). -/
structure CacheEntry (α : Type) where
  key : String
  value : α
  expired : Bool
deriving DecidableEq, Repr

/-- The keyed analysis cache. -/
structure AnalysisCache (α : Type) where
  entries : List (CacheEntry α)
deriving DecidableEq, Repr

/-- The live (non-expired) entry for a key, if any. -/
def lookupLive {α : Type} (key : String) (c : AnalysisCache α) : Option α :=
  match c.entries.find? (fun e => e.key == key && !e.expired) with
  | some e => some e.value
  | none => none

/-- Modelled from the spec: the Analysis Cache backend is not under src/.
get_or_compute looks up a live entry by key; on a hit it returns the entry
without invoking the compute function; on a miss it invokes the compute
function once (computeResult is that call's result), stores it as a new live
entry, and returns it.  The third component counts upstream compute
invocations performed by this call (0 or 1). -/
def get_or_compute {α : Type} (key : String) (computeResult : α)
    (c : AnalysisCache α) : α × AnalysisCache α × Nat :=
  match lookupLive key c with
  | some v => (v, c, 0)
  | none =>
      (computeResult,
       ⟨{ key := key, value := computeResult, expired := false } :: c.entries⟩,
       1)

/-- Modelled from the spec: N concurrent get_or_compute calls for one key are
coalesced by the single-flight discipline — waiters share the in-flight
result, which is equivalent to the N calls acting on the cache one after
another.  Returns every caller's result, the final cache, and the total number
of upstream compute invocations. -/
def runCalls {α : Type} (key : String) (computeResult : α) :
    Nat → AnalysisCache α → List α × AnalysisCache α × Nat
  | 0, c => ([], c, 0)
  | n + 1, c =>
      let r := get_or_compute key computeResult c
      let rest := runCalls key computeResult n r.2.1
      (r.1 :: rest.1, rest.2.1, r.2.2 + rest.2.2)

/-! ## Collector auto-creation of Disasters (backend, modelled from the spec) -/

/-- Lifecycle status of a Disaster. -/
inductive DStatus
  | active
  | resolved
deriving DecidableEq, Repr

/-- A Disaster record as far as auto-creation dedup is concerned. -/
structure DisasterRec where
  region : String
  dtype : String
  status : DStatus
deriving DecidableEq, Repr

/-- True iff an open (status=active) Disaster of this type exists for the region. -/
def hasOpenDisaster (region dtype : String) (ds : List DisasterRec) : Bool :=
  ds.any fun d => d.region == region && d.dtype == dtype && d.status == DStatus.active

/-- Number of open Disasters of this type for the region. -/
def openCount (region dtype : String) (ds : List DisasterRec) : Nat :=
  ds.countP fun d => d.region == region && d.dtype == dtype && d.status == DStatus.active

/-- Modelled from the spec: the Collector backend is not under src/.  One
Collector cycle for a region and disaster type: when the threshold rule fires
for an Observation and no open Disaster of the same type exists for that
region, exactly one new active Disaster is created; otherwise the store is
left unchanged. -/
def collectorCycle (region dtype : String) (thresholdExceeded : Bool)
    (ds : List DisasterRec) : List DisasterRec :=
  if thresholdExceeded && !hasOpenDisaster region dtype ds then
    { region := region, dtype := dtype, status := DStatus.active } :: ds
  else ds

/-! ## Dispatch Recommender (backend, modelled from the spec) -/

/-- Availability status of a Worker. -/
inductive WStatus
  | available
  | deployed
deriving DecidableEq, Repr

/-- A Worker as far as ranking is concerned: role, status, and the geographic
distance (km) from the worker to the disaster. -/
structure WorkerRec where
  name : String
  role : String
  status : WStatus
  distanceKm : Nat
deriving DecidableEq, Repr

/-- Modelled from the spec: the composite ranking score.  Role-suitability for
the disaster type is weighted higher than geographic distance, so the key
orders first on suitability (0 for a role match, 1 otherwise), then on
distance (closer is better).  Smaller key = ranked earlier. -/
def rankKey (suitable : String → Bool) (w : WorkerRec) : Nat × Nat :=
  ((if suitable w.role then 0 else 1), w.distanceKm)

/-- Ordering on ranking keys: lexicographic, suitability before distance. -/
def keyLe (a b : Nat × Nat) : Bool :=
  a.1 < b.1 || (a.1 == b.1 && a.2 ≤ b.2)

/-- Insert into a list sorted by le. -/
def insertBy {α : Type} (le : α → α → Bool) (x : α) : List α → List α
  | [] => [x]
  | y :: ys => if le x y then x :: y :: ys else y :: insertBy le x ys

/-- Insertion sort by le. -/
def sortBy {α : Type} (le : α → α → Bool) : List α → List α
  | [] => []
  | x :: xs => insertBy le x (sortBy le xs)

/-- Modelled from the spec: the Dispatch Recommender backend is not under
src/.  Filters Workers to status=available and ranks them by the composite
score; the head of the returned list is the top (recommended) candidate. -/
def recommend (suitable : String → Bool) (ws : List WorkerRec) : List WorkerRec :=
  sortBy (fun a b => keyLe (rankKey suitable a) (rankKey suitable b))
    (ws.filter fun w => w.status == WStatus.available)

/-! ## Sample inputs -/

/-- A 210-character sample AI message: 21 blocks of a nine-letter word followed
by a space (the spec's over-length 210-character English message scenario). -/
def msg210 : List Char :=
  (List.replicate 21 (List.replicate 9 'a' ++ [' '])).flatten

/-! ## Helper lemmas -/

theorem countP_zero_iff_any_false {α : Type} (p : α → Bool) (l : List α) :
    l.countP p = 0 ↔ l.any p = false := by
  induction l with
  | nil => simp
  | cons a l ih =>
    by_cases h : p a = true
    · simp [List.countP_cons, List.any_cons, h]
    · simp only [Bool.not_eq_true] at h
      simp [List.countP_cons, List.any_cons, h, ih]

/-! ## Claim C1 -/

/-- C1 (as stated): generating an alert preview in the console never issues a
request to the SMS-dispatching endpoint.  This is false: at the concrete input
(api "http://api", selected disaster "1"), generatePreview issues a POST to the
alert-send endpoint, which is the operation that dispatches SMS. -/
theorem c1_counterexample :
    (generatePreviewRequests "http://api" "1").any (dispatchesSms "http://api") = true := by
  decide

/-- C1 (amended): for every selected disaster, the console's preview-generation
operation itself issues a POST to the alert-send endpoint — the operation that
dispatches SMS — so preview and send are one conflated operation and no
separate side-effect-free preview exists in the console. -/
theorem c1_preview_posts_to_send (api disId : String) (h : disId ≠ "") :
    (generatePreviewRequests api disId).any (dispatchesSms api) = true := by
  unfold generatePreviewRequests
  rw [if_neg h]
  simp [dispatchesSms, sendAlertPath]

/-- Witness for c1_preview_posts_to_send at api "http://api", disId "1". -/
theorem c1_witness :
    ("1" : String) ≠ "" ∧
    (generatePreviewRequests "http://api" "1").any (dispatchesSms "http://api") = true :=
  ⟨by decide, c1_preview_posts_to_send "http://api" "1" (by decide)⟩

/-! ## Claim C4 -/

/-- C4: when the batched AI refresh fails entirely (both requests of the
Promise.all reject), loadAll leaves the prediction snapshot and all associated
report state exactly as they were — the failure never replaces them with an
empty or partial set. -/
theorem c4_failed_cycle_retains_state (s : AIReportState) :
    (loadAll s none none).predictions = s.predictions ∧
    (loadAll s none none).report = s.report ∧
    (loadAll s none none).stats = s.stats ∧
    (loadAll s none none).generatedAt = s.generatedAt :=
  ⟨rfl, rfl, rfl, rfl⟩

/-! ## Claim C5 -/

/-- C5 (as stated): a failure of the predictions request does not prevent the
national-report request's result from being applied.  This is false: starting
from the empty state with a successful national-report response carrying report
"R" and a failed predictions request, the report field stays none — the
successful sibling's result is discarded. -/
theorem c5_counterexample :
    (loadAll ⟨none, none, none, [], false⟩
        (some ⟨some "R", some "S", some "T"⟩) none).report = none ∧
    (loadAll ⟨none, none, none, [], false⟩
        (some ⟨some "R", some "S", some "T"⟩) none).report ≠ some "R" := by
  constructor
  · rfl
  · decide

/-- C5 (amended): the two requests are joined by Promise.all, so a failure of
either one prevents both results from being applied: whenever the predictions
request fails, and likewise whenever the national-report request fails, the
whole state except the loading flag is left unchanged. -/
theorem c5_either_failure_aborts_both (s : AIReportState)
    (natRes : Option NationalReportResponse) (predRes : Option PredictResponse) :
    loadAll s natRes none = { s with loading := false } ∧
    loadAll s none predRes = { s with loading := false } := by
  constructor
  · cases natRes <;> rfl
  · cases predRes <;> rfl

/-! ## Claim C9 -/

/-- C9 (as stated): on a non-200 primary response the script performs a
fallback attempt re-requesting the same resource.  This is false: with every
URL answering 404, the run performs exactly one request — the guard
url === fallbackUrl already matches the primary attempt — although the
completion callback is indeed invoked with no file written. -/
theorem c9_counterexample :
    (download (fun _ => 404) url).requests = [url] ∧
    (download (fun _ => 404) url).requests.length ≠ 2 ∧
    (download (fun _ => 404) url).cbInvoked = true ∧
    (download (fun _ => 404) url).fileWritten = false := by
  have h : download (fun _ => 404) url =
      { requests := [url], fileWritten := false, cbInvoked := true } := by
    rw [download.eq_def]
    simp [url, fallbackUrl]
  refine ⟨by rw [h], by rw [h]; decide, by rw [h], by rw [h]⟩

/-- C9 (amended): because the fallback URL is string-identical to the primary
URL, a non-200 status on the primary request makes the script invoke the
completion callback (printing "Done") immediately, with no file written and no
second (fallback) request at all. -/
theorem c9_primary_failure_invokes_cb (status : String → Nat)
    (h : status url ≠ 200) :
    download status url =
      { requests := [url], fileWritten := false, cbInvoked := true } ∧
    url = fallbackUrl := by
  refine ⟨?_, rfl⟩
  rw [download.eq_def]
  rw [if_pos h]
  rw [dif_pos (show url = fallbackUrl from rfl)]

/-- Witness for c9_primary_failure_invokes_cb with every URL answering 404. -/
theorem c9_witness :
    ((fun _ => (404 : Nat)) url ≠ 200) ∧
    (download (fun _ => (404 : Nat)) url =
        { requests := [url], fileWritten := false, cbInvoked := true } ∧
      url = fallbackUrl) :=
  ⟨by decide, c9_primary_failure_invokes_cb (fun _ => 404) (by decide)⟩

/-! ## Claim C2 -/

theorem hasSentAlert_eq_false (d t : Nat) (s : List AlertRec)
    (h : sentCount d t s = 0) : hasSentAlert d t s = false := by
  unfold sentCount at h
  unfold hasSentAlert
  exact (countP_zero_iff_any_false _ _).mp h

theorem hasSentAlert_dispatchAlert (d t : Nat) (s : List AlertRec) :
    hasSentAlert d t (dispatchAlert d t s) = true := by
  unfold dispatchAlert
  split
  · assumption
  · simp [hasSentAlert]

theorem sentCount_dispatchAlert (d t : Nat) (s : List AlertRec)
    (h : hasSentAlert d t s = false) :
    sentCount d t (dispatchAlert d t s) = sentCount d t s + 1 := by
  unfold dispatchAlert
  rw [if_neg (by simp [h])]
  simp [sentCount, List.countP_cons]

theorem dispatchAlert_noop (d t : Nat) (s : List AlertRec)
    (h : hasSentAlert d t s = true) : dispatchAlert d t s = s := by
  simp [dispatchAlert, h]

theorem dispatchN_noop (d t n : Nat) (s : List AlertRec)
    (h : hasSentAlert d t s = true) : dispatchN d t n s = s :=
  Function.iterate_fixed (dispatchAlert_noop d t s h) n

/-- C2: for every disaster and escalation tier, N serialized concurrent
dispatch requests against a store with no sent Alert for that pair produce
exactly one Alert with status=sent for the pair — the first request creates
it, every later request is an already-satisfied no-op. -/
theorem c2_exactly_one_sent (d t n : Nat) (s : List AlertRec)
    (h0 : sentCount d t s = 0) (hn : 1 ≤ n) :
    sentCount d t (dispatchN d t n s) = 1 := by
  obtain ⟨m, rfl⟩ : ∃ m, n = m + 1 :=
    ⟨n - 1, (Nat.succ_pred_eq_of_pos hn).symm⟩
  have hfalse : hasSentAlert d t s = false := hasSentAlert_eq_false d t s h0
  have hstep : dispatchN d t (m + 1) s = dispatchN d t m (dispatchAlert d t s) := by
    unfold dispatchN
    exact Function.iterate_succ_apply (dispatchAlert d t) m s
  rw [hstep, dispatchN_noop d t m _ (hasSentAlert_dispatchAlert d t s),
    sentCount_dispatchAlert d t s hfalse, h0]

/-- Witness for c2_exactly_one_sent: three requests for disaster 1, tier 2 on
an empty store. -/
theorem c2_witness :
    sentCount 1 2 [] = 0 ∧ 1 ≤ 3 ∧ sentCount 1 2 (dispatchN 1 2 3 []) = 1 :=
  ⟨by decide, by decide, c2_exactly_one_sent 1 2 3 [] (by decide) (by decide)⟩

/-! ## Claim C3 -/

theorem joinWithin_le (limit : Nat) (ws : List (List Char)) :
    ∀ acc : List Char, acc.length ≤ limit →
      (joinWithin limit acc ws).length ≤ limit := by
  induction ws with
  | nil => intro acc h; simpa [joinWithin] using h
  | cons w ws ih =>
    intro acc h
    unfold joinWithin
    by_cases hc : (acc ++ [' '] ++ w).length ≤ limit
    · rw [if_pos hc]
      exact ih _ hc
    · rw [if_neg hc]
      exact h

/-- C3: for every AI message variant longer than the 160-character channel
limit, the stored message is at most 160 characters (cut at a word boundary by
truncateWordBoundary), the alert is flagged as truncated, and validation
accepts the alert rather than rejecting it. -/
theorem c3_truncate_and_flag (msg : List Char) (h : 160 < msg.length) :
    (truncateWordBoundary 160 msg).1.length ≤ 160 ∧
    (truncateWordBoundary 160 msg).2 = true ∧
    isAccepted (validateMessage msg) = true := by
  have hnot : ¬ msg.length ≤ 160 := Nat.not_le.mpr h
  refine ⟨?_, ?_, rfl⟩
  · unfold truncateWordBoundary
    rw [if_neg hnot]
    cases hsw : splitWords msg with
    | nil => simp
    | cons w ws =>
      dsimp only
      by_cases hw : w.length ≤ 160
      · rw [if_pos hw]
        exact joinWithin_le 160 ws w hw
      · rw [if_neg hw]
        simp [List.length_take]
  · unfold truncateWordBoundary
    rw [if_neg hnot]
    cases splitWords msg with
    | nil => rfl
    | cons w ws =>
      dsimp only
      by_cases hw : w.length ≤ 160 <;> simp [hw]

set_option maxRecDepth 40000 in
/-- Witness for c3_truncate_and_flag at the 210-character sample message. -/
theorem c3_witness :
    160 < msg210.length ∧
    ((truncateWordBoundary 160 msg210).1.length ≤ 160 ∧
     (truncateWordBoundary 160 msg210).2 = true ∧
     isAccepted (validateMessage msg210) = true) :=
  ⟨by decide, c3_truncate_and_flag msg210 (by decide)⟩

/-! ## Claim C6 -/

theorem get_or_compute_hit {α : Type} (key : String) (r v : α)
    (c : AnalysisCache α) (h : lookupLive key c = some v) :
    get_or_compute key r c = (v, c, 0) := by
  simp [get_or_compute, h]

theorem lookupLive_after_miss {α : Type} (key : String) (r : α)
    (c : AnalysisCache α) :
    lookupLive key
      (AnalysisCache.mk ({ key := key, value := r, expired := false } :: c.entries)) =
      some r := by
  unfold lookupLive
  rw [List.find?_cons_of_pos _ (by simp)]

theorem runCalls_hit {α : Type} (key : String) (r : α) (n : Nat)
    (c : AnalysisCache α) (h : lookupLive key c = some r) :
    runCalls key r n c = (List.replicate n r, c, 0) := by
  induction n with
  | zero => rfl
  | succ m ih =>
    simp [runCalls, get_or_compute_hit key r r c h, ih, List.replicate_succ]

/-- C6: for every key and every N ≥ 1 serialized-by-single-flight concurrent
get_or_compute calls with that key against a cache with no live entry for it,
exactly one upstream compute invocation occurs in total and every one of the N
callers receives the identical computed result. -/
theorem c6_single_flight {α : Type} (key : String) (r : α) (n : Nat)
    (c : AnalysisCache α) (hmiss : lookupLive key c = none) (hn : 1 ≤ n) :
    (runCalls key r n c).2.2 = 1 ∧ ∀ v ∈ (runCalls key r n c).1, v = r := by
  obtain ⟨m, rfl⟩ : ∃ m, n = m + 1 :=
    ⟨n - 1, (Nat.succ_pred_eq_of_pos hn).symm⟩
  have hstep : get_or_compute key r c =
      (r, AnalysisCache.mk ({ key := key, value := r, expired := false } :: c.entries), 1) := by
    simp [get_or_compute, hmiss]
  have hrest := runCalls_hit key r m _ (lookupLive_after_miss key r c)
  constructor
  · simp [runCalls, hstep, hrest]
  · intro v hv
    simp only [runCalls, hstep, hrest] at hv
    rcases List.mem_cons.mp hv with h | h
    · exact h
    · exact List.eq_of_mem_replicate h

/-- Witness for c6_single_flight: three calls for key "k" computing 7 on the
empty cache. -/
theorem c6_witness :
    lookupLive "k" (AnalysisCache.mk ([] : List (CacheEntry Nat))) = none ∧ 1 ≤ 3 ∧
    ((runCalls "k" (7 : Nat) 3 (AnalysisCache.mk [])).2.2 = 1 ∧
      ∀ v ∈ (runCalls "k" (7 : Nat) 3 (AnalysisCache.mk [])).1, v = 7) :=
  ⟨by decide, by decide, c6_single_flight "k" 7 3 (AnalysisCache.mk []) (by decide) (by decide)⟩

/-! ## Claim C7 -/

theorem hasOpenDisaster_eq_false (region dtype : String) (ds : List DisasterRec)
    (h : openCount region dtype ds = 0) :
    hasOpenDisaster region dtype ds = false := by
  unfold openCount at h
  unfold hasOpenDisaster
  exact (countP_zero_iff_any_false _ _).mp h

/-- C7: a Collector cycle whose threshold rule fires auto-creates a Disaster
only when no open Disaster of the same type exists for that region: starting
with none, the first qualifying cycle yields exactly one open Disaster of that
type for the region, and a second qualifying cycle changes nothing — no
duplicate is created for the ongoing event. -/
theorem c7_no_duplicate_disaster (region dtype : String) (ds : List DisasterRec)
    (h0 : openCount region dtype ds = 0) :
    openCount region dtype (collectorCycle region dtype true ds) = 1 ∧
    collectorCycle region dtype true (collectorCycle region dtype true ds) =
      collectorCycle region dtype true ds := by
  have hfalse : hasOpenDisaster region dtype ds = false :=
    hasOpenDisaster_eq_false region dtype ds h0
  have hcycle : collectorCycle region dtype true ds =
      { region := region, dtype := dtype, status := DStatus.active } :: ds := by
    simp [collectorCycle, hfalse]
  constructor
  · rw [hcycle]
    unfold openCount at h0 ⊢
    simp [List.countP_cons, h0]
  · rw [hcycle]
    simp [collectorCycle, hasOpenDisaster]

/-- Witness for c7_no_duplicate_disaster: region "Tana River", type flood,
empty store. -/
theorem c7_witness :
    openCount "Tana River" "flood" [] = 0 ∧
    (openCount "Tana River" "flood"
        (collectorCycle "Tana River" "flood" true []) = 1 ∧
      collectorCycle "Tana River" "flood" true
          (collectorCycle "Tana River" "flood" true []) =
        collectorCycle "Tana River" "flood" true []) :=
  ⟨by decide, c7_no_duplicate_disaster "Tana River" "flood" [] (by decide)⟩

/-! ## Claim C8 -/

theorem mem_insertBy {α : Type} (le : α → α → Bool) (x y : α) (l : List α) :
    x ∈ insertBy le y l ↔ x = y ∨ x ∈ l := by
  induction l with
  | nil => simp [insertBy]
  | cons z zs ih =>
    unfold insertBy
    by_cases h : le y z = true
    · rw [if_pos h]
      simp [List.mem_cons]
    · rw [if_neg h]
      simp only [List.mem_cons, ih]
      tauto

theorem mem_sortBy {α : Type} (le : α → α → Bool) (x : α) (l : List α) :
    x ∈ sortBy le l ↔ x ∈ l := by
  induction l with
  | nil => simp [sortBy]
  | cons z zs ih => simp [sortBy, mem_insertBy, ih]

/-- C8: the Dispatch Recommender returns only Workers with status=available,
and its composite ranking puts role-suitability above distance: in the spec's
scenario — three available workers at 2km with role match, 1km without role
match, 5km with role match — the 2km role-matched worker is ranked first. -/
theorem c8_recommender_ranking :
    (∀ (suitable : String → Bool) (ws : List WorkerRec) (w : WorkerRec),
        w ∈ recommend suitable ws → w.status = WStatus.available) ∧
    (recommend (fun r => r == "rescue")
        [⟨"A", "rescue", WStatus.available, 2⟩,
         ⟨"B", "clerk", WStatus.available, 1⟩,
         ⟨"C", "rescue", WStatus.available, 5⟩]).head? =
      some ⟨"A", "rescue", WStatus.available, 2⟩ := by
  constructor
  · intro suitable ws w hw
    unfold recommend at hw
    rw [mem_sortBy] at hw
    exact eq_of_beq (List.mem_filter.mp hw).2
  · decide

/-- Witness for c8_recommender_ranking: its availability half applied to the
2km role-matched worker of the scenario. -/
theorem c8_witness :
    (⟨"A", "rescue", WStatus.available, 2⟩ : WorkerRec).status = WStatus.available :=
  c8_recommender_ranking.1 (fun r => r == "rescue")
    [⟨"A", "rescue", WStatus.available, 2⟩,
     ⟨"B", "clerk", WStatus.available, 1⟩,
     ⟨"C", "rescue", WStatus.available, 5⟩]
    ⟨"A", "rescue", WStatus.available, 2⟩ (by decide)

/-! ## Claim C10 -/

/-- C10: whenever the alert-send response body parses as JSON, the console
reports success ("Alert sent to N recipients") and renders the body as a sent
alert, whatever the HTTP status code is — generatePreviewOutcome never
inspects the status, so an error status with a JSON body is never surfaced as
a failure. -/
theorem c10_json_body_always_success (status : Nat) (data : AlertJson) :
    generatePreviewOutcome status (some data) =
      { preview := some data
        toastType := ToastType.success
        toastMsg := sentToastMsg data.recipients } :=
  rfl

end KDMS
